import Mathlib

set_option maxHeartbeats 1000000

/-! Shallow embedding of `graphormer/modules/graphormer_graph_encoder_layer.py`
and `eval_graphormer_lrgb.py` from the graphormer_lrgb repository.

A sequence representation is a 3-dimensional tensor with axes
(sequence length T, batch size B, embedding dimension C), embedded as nested
lists of rationals.  The multi-head attention collaborator, the two layer-norm
modules and the dropout modules appear as explicit function-valued parameters
of the layer, exactly as they are attribute slots of the `nn.Module` in the
source; the feed-forward projections `fc1`/`fc2` are concrete linear maps. -/

/-- A tensor of shape (T, B, C): T sequence positions, B batch entries,
C channels per position. -/
abbrev Tensor : Type := List (List (List ℚ))

/-- Elementwise application of a scalar function, as torch broadcasts
an activation over a tensor. -/
def tensorMap (f : ℚ → ℚ) (x : Tensor) : Tensor :=
  x.map (fun r => r.map (fun v => v.map f))

/-- Elementwise addition of two tensors of equal shape, as `residual + x`
in the source. -/
def tensorAdd (a b : Tensor) : Tensor :=
  List.zipWith
    (fun ra rb => List.zipWith (fun va vb => List.zipWith (fun p q => p + q) va vb) ra rb)
    a b

/-- Dot product of two vectors of equal length. -/
def dot (a b : List ℚ) : ℚ := (List.zipWith (fun p q => p * q) a b).sum

/-- Runtime view of a `torch.nn.Linear` module: a weight matrix stored as
`out_features` rows of length `in_features`, and a bias of length
`out_features`. -/
structure Linear where
  weight : List (List ℚ)
  bias : List ℚ

/-- `torch.nn.Linear.forward` on one vector: each output coordinate is the
dot product of the corresponding weight row with the input, plus the bias. -/
def Linear.apply (l : Linear) (v : List ℚ) : List ℚ :=
  (l.weight.zip l.bias).map (fun wb => dot wb.1 v + wb.2)

/-- A linear module applied position-wise along the trailing axis of a
(T, B, C) tensor, as torch applies `nn.Linear` to the last dimension. -/
def tensorLinear (l : Linear) (x : Tensor) : Tensor :=
  x.map (fun r => r.map l.apply)

/-- Forward-time interface of the `MultiheadAttention` collaborator, in the
argument order of the call site in `GraphormerGraphEncoderLayer.forward`:
(query, key, value, attn_bias, key_padding_mask, need_weights, attn_mask) ↦
(output tensor, optional attention weights).  The collaborator is external to
this core; only this contract is used. -/
def SelfAttention : Type :=
  Tensor → Tensor → Tensor → Option Tensor → Option Tensor → Bool → Option Tensor →
    Tensor × Option Tensor

/-- Runtime view of a constructed `GraphormerGraphEncoderLayer`: the module
slots assigned in `__init__`, with current parameter values.  The two layer
norms, the attention collaborator and the two dropout modules are carried as
the functions they compute at forward time. -/
structure GraphormerGraphEncoderLayer where
  pre_layernorm : Bool
  self_attn : SelfAttention
  self_attn_layer_norm : Tensor → Tensor
  final_layer_norm : Tensor → Tensor
  dropout_module : Tensor → Tensor
  activation_dropout_module : Tensor → Tensor
  activation_fn : ℚ → ℚ
  fc1 : Linear
  fc2 : Linear

/-- `GraphormerGraphEncoderLayer.forward`, transcribed statement by statement
from the source (lines 120-159): residual snapshot, optional pre-norm,
self-attention with query=key=value and `need_weights=False`, dropout,
residual add, optional post-norm; then the same pattern around the
feed-forward block `fc2(activation_dropout(activation_fn(fc1(x))))`. -/
def GraphormerGraphEncoderLayer.forward (self : GraphormerGraphEncoderLayer)
    (x : Tensor) (self_attn_bias self_attn_mask self_attn_padding_mask : Option Tensor) :
    Tensor × Option Tensor :=
  let residual := x
  let x := if self.pre_layernorm then self.self_attn_layer_norm x else x
  let attnPair := self.self_attn x x x self_attn_bias self_attn_padding_mask false self_attn_mask
  let x := attnPair.1
  let attn := attnPair.2
  let x := self.dropout_module x
  let x := tensorAdd residual x
  let x := if !self.pre_layernorm then self.self_attn_layer_norm x else x
  let residual := x
  let x := if self.pre_layernorm then self.final_layer_norm x else x
  let x := tensorMap self.activation_fn (tensorLinear self.fc1 x)
  let x := self.activation_dropout_module x
  let x := tensorLinear self.fc2 x
  let x := self.dropout_module x
  let x := tensorAdd residual x
  let x := if !self.pre_layernorm then self.final_layer_norm x else x
  (x, attn)

/-- The 13-step algorithm of spec section 4.1, written from the spec text:
1. save `residual = input`; 2. self-attention-norm iff pre-norm; 3. attention
with query=key=value, weights never requested; 4. post-attention dropout;
5. add the step-1 residual; 6. self-attention-norm iff post-norm; 7. save the
second residual; 8. final-norm iff pre-norm; 9. fc1, activation,
activation-dropout, fc2; 10. post-feed-forward dropout; 11. add the step-7
residual; 12. final-norm iff post-norm; 13. return the pair. -/
def GraphormerGraphEncoderLayer.forwardSpec (self : GraphormerGraphEncoderLayer)
    (x : Tensor) (self_attn_bias self_attn_mask self_attn_padding_mask : Option Tensor) :
    Tensor × Option Tensor :=
  let residual1 := x
  let s2 := if self.pre_layernorm then self.self_attn_layer_norm x else x
  let s3 := self.self_attn s2 s2 s2 self_attn_bias self_attn_padding_mask false self_attn_mask
  let s4 := self.dropout_module s3.1
  let s5 := tensorAdd residual1 s4
  let s6 := if !self.pre_layernorm then self.self_attn_layer_norm s5 else s5
  let residual2 := s6
  let s8 := if self.pre_layernorm then self.final_layer_norm s6 else s6
  let s9 := tensorLinear self.fc2 (self.activation_dropout_module
    (tensorMap self.activation_fn (tensorLinear self.fc1 s8)))
  let s10 := self.dropout_module s9
  let s11 := tensorAdd residual2 s10
  let s12 := if !self.pre_layernorm then self.final_layer_norm s11 else s11
  (s12, s3.2)

/-! Shape of a tensor. -/

/-- `HasShape x t b c`: `x` is a well-formed (t, b, c) tensor — t sequence
positions, each holding b batch rows, each of length c. -/
def HasShape (x : Tensor) (t b c : ℕ) : Prop :=
  x.length = t ∧ ∀ r ∈ x, r.length = b ∧ ∀ v ∈ r, v.length = c

instance (x : Tensor) (t b c : ℕ) : Decidable (HasShape x t b c) := by
  unfold HasShape
  exact inferInstance

theorem hasShape_tensorMap {x : Tensor} {t b c : ℕ} (f : ℚ → ℚ)
    (h : HasShape x t b c) : HasShape (tensorMap f x) t b c := by
  obtain ⟨hl, hm⟩ := h
  refine ⟨by simpa [tensorMap] using hl, ?_⟩
  intro r hr
  simp only [tensorMap, List.mem_map] at hr
  obtain ⟨r0, hr0, rfl⟩ := hr
  obtain ⟨hr0l, hr0m⟩ := hm r0 hr0
  refine ⟨by simpa using hr0l, ?_⟩
  intro v hv
  simp only [List.mem_map] at hv
  obtain ⟨v0, hv0, rfl⟩ := hv
  simpa using (hr0m v0 hv0)

theorem forall_mem_zipWith {α β γ : Type} (f : α → β → γ) (P : γ → Prop)
    (a : List α) (b : List β) (h : ∀ x ∈ a, ∀ y ∈ b, P (f x y)) :
    ∀ z ∈ List.zipWith f a b, P z := by
  intro z hz
  obtain ⟨i, hi, rfl⟩ := List.mem_iff_getElem.mp hz
  rw [List.getElem_zipWith]
  have hia : i < a.length := lt_of_lt_of_le hi (by simp [List.length_zipWith])
  have hib : i < b.length := lt_of_lt_of_le hi (by simp [List.length_zipWith])
  exact h _ (List.getElem_mem hia) _ (List.getElem_mem hib)

theorem hasShape_tensorAdd {a b : Tensor} {t bb c : ℕ}
    (ha : HasShape a t bb c) (hb : HasShape b t bb c) :
    HasShape (tensorAdd a b) t bb c := by
  obtain ⟨hal, ham⟩ := ha
  obtain ⟨hbl, hbm⟩ := hb
  refine ⟨by simp [tensorAdd, List.length_zipWith, hal, hbl], ?_⟩
  apply forall_mem_zipWith
  intro ra hra rb hrb
  obtain ⟨hral, hram⟩ := ham ra hra
  obtain ⟨hrbl, hrbm⟩ := hbm rb hrb
  refine ⟨by simp [List.length_zipWith, hral, hrbl], ?_⟩
  apply forall_mem_zipWith
  intro va hva vb hvb
  simp [List.length_zipWith, (hram va hva), (hrbm vb hvb)]

theorem length_Linear_apply (l : Linear) (v : List ℚ) :
    (l.apply v).length = min l.weight.length l.bias.length := by
  simp [Linear.apply]

theorem hasShape_tensorLinear {x : Tensor} {t b c f : ℕ} (l : Linear)
    (h : HasShape x t b c) (hw : l.weight.length = f) (hb : l.bias.length = f) :
    HasShape (tensorLinear l x) t b f := by
  obtain ⟨hl, hm⟩ := h
  refine ⟨by simpa [tensorLinear] using hl, ?_⟩
  intro r hr
  simp only [tensorLinear, List.mem_map] at hr
  obtain ⟨r0, hr0, rfl⟩ := hr
  obtain ⟨hr0l, _⟩ := hm r0 hr0
  refine ⟨by simpa using hr0l, ?_⟩
  intro v hv
  simp only [List.mem_map] at hv
  obtain ⟨v0, _, rfl⟩ := hv
  simp [length_Linear_apply, hw, hb]

/-- Claim C2: for every configuration and every (T, B, C) input with trailing
dimension equal to the layer embedding dimension, the first component of the
pair returned by forward has exactly the input shape.  The hypotheses are the
contracts of the collaborators: both layer norms and both dropout modules
preserve shape (torch `nn.LayerNorm` and `nn.Dropout` do), the attention
collaborator returns a tensor of the shape of its query (spec section 4.2),
fc1 maps the embedding width c to the feed-forward width f, and fc2 maps f
back to c. -/
theorem forward_preserves_shape (L : GraphormerGraphEncoderLayer)
    (x : Tensor) (bias mask padding : Option Tensor) (t b c f : ℕ)
    (hx : HasShape x t b c)
    (hnorm1 : ∀ y, HasShape y t b c → HasShape (L.self_attn_layer_norm y) t b c)
    (hnorm2 : ∀ y, HasShape y t b c → HasShape (L.final_layer_norm y) t b c)
    (hattn : ∀ q k v bi pm nw am, HasShape q t b c →
      HasShape (L.self_attn q k v bi pm nw am).1 t b c)
    (hdrop : ∀ y, HasShape y t b c → HasShape (L.dropout_module y) t b c)
    (hadrop : ∀ y, HasShape y t b f → HasShape (L.activation_dropout_module y) t b f)
    (hfc1w : L.fc1.weight.length = f) (hfc1b : L.fc1.bias.length = f)
    (hfc2w : L.fc2.weight.length = c) (hfc2b : L.fc2.bias.length = c) :
    HasShape (L.forward x bias mask padding).1 t b c := by
  simp only [GraphormerGraphEncoderLayer.forward]
  set x1 := if L.pre_layernorm then L.self_attn_layer_norm x else x with hx1
  have h1 : HasShape x1 t b c := by
    rw [hx1]
    split
    · exact hnorm1 x hx
    · exact hx
  set a3 := L.self_attn x1 x1 x1 bias padding false mask with ha3
  have h3 : HasShape a3.1 t b c := hattn _ _ _ _ _ _ _ h1
  set x5 := tensorAdd x (L.dropout_module a3.1) with hx5
  have h5 : HasShape x5 t b c := hasShape_tensorAdd hx (hdrop _ h3)
  set x6 := if !L.pre_layernorm then L.self_attn_layer_norm x5 else x5 with hx6
  have h6 : HasShape x6 t b c := by
    rw [hx6]
    split
    · exact hnorm1 _ h5
    · exact h5
  set x8 := if L.pre_layernorm then L.final_layer_norm x6 else x6 with hx8
  have h8 : HasShape x8 t b c := by
    rw [hx8]
    split
    · exact hnorm2 _ h6
    · exact h6
  have h9 : HasShape (tensorLinear L.fc2 (L.activation_dropout_module
      (tensorMap L.activation_fn (tensorLinear L.fc1 x8)))) t b c :=
    hasShape_tensorLinear L.fc2
      (hadrop _ (hasShape_tensorMap _ (hasShape_tensorLinear L.fc1 h8 hfc1w hfc1b)))
      hfc2w hfc2b
  set x11 := tensorAdd x6 (L.dropout_module (tensorLinear L.fc2
    (L.activation_dropout_module (tensorMap L.activation_fn (tensorLinear L.fc1 x8))))) with hx11
  have h11 : HasShape x11 t b c := hasShape_tensorAdd h6 (hdrop _ h9)
  split
  · exact hnorm2 _ h11
  · exact h11

/-- A concrete layer used to witness the shape theorem: post-norm, identity
norms and dropouts, attention that returns its query, identity activation,
fc1 : ℚ^2 → ℚ^3 and fc2 : ℚ^3 → ℚ^2. -/
def shapeWitnessLayer : GraphormerGraphEncoderLayer where
  pre_layernorm := false
  self_attn := fun q _ _ _ _ _ _ => (q, none)
  self_attn_layer_norm := fun y => y
  final_layer_norm := fun y => y
  dropout_module := fun y => y
  activation_dropout_module := fun y => y
  activation_fn := fun v => v
  fc1 := ⟨[[1, 0], [0, 1], [1, 1]], [0, 0, 0]⟩
  fc2 := ⟨[[1, 0, 0], [0, 1, 0]], [0, 0]⟩

def shapeWitnessInput : Tensor := [[[1, 2]]]

/-- Witness for claim C2 at a concrete layer and input of shape (1, 1, 2). -/
theorem forward_preserves_shape_witness :
    HasShape shapeWitnessInput 1 1 2 ∧
      HasShape ((shapeWitnessLayer.forward shapeWitnessInput none none none).1) 1 1 2 :=
  ⟨by decide,
    forward_preserves_shape shapeWitnessLayer shapeWitnessInput none none none 1 1 2 3
      (by decide) (fun _ h => h) (fun _ h => h) (fun _ _ _ _ _ _ _ h => h)
      (fun _ h => h) (fun _ h => h) (by decide) (by decide) (by decide) (by decide)⟩

/-! Dropout.  `torch.nn.Dropout(p)` at forward time: in training mode each
element is kept with probability 1 - p and the kept elements are scaled by
1 / (1 - p); in evaluation mode it is the identity.  The random draws are an
explicit uniform-[0,1) sample per element position. -/

def vecMapIdx (f : ℕ → ℚ → ℚ) : ℕ → List ℚ → List ℚ
  | _, [] => []
  | k, v :: vs => f k v :: vecMapIdx f (k + 1) vs

def matMapIdx (f : ℕ → ℕ → ℚ → ℚ) : ℕ → List (List ℚ) → List (List ℚ)
  | _, [] => []
  | j, r :: rs => vecMapIdx (f j) 0 r :: matMapIdx f (j + 1) rs

def tensorMapIdx (f : ℕ → ℕ → ℕ → ℚ → ℚ) : ℕ → Tensor → Tensor
  | _, [] => []
  | i, m :: ms => matMapIdx (f i) 0 m :: tensorMapIdx f (i + 1) ms

/-- `nn.Dropout(p)` applied to a tensor, with the per-element uniform draws
`u` made explicit: in training mode position (i, j, k) survives when
`u i j k < 1 - p` and is rescaled by `1 / (1 - p)`, otherwise it becomes 0;
in evaluation mode the input passes through unchanged. -/
def nnDropoutRun (p : ℚ) (training : Bool) (u : ℕ → ℕ → ℕ → ℚ) (x : Tensor) : Tensor :=
  if training then
    tensorMapIdx (fun i j k v => if u i j k < 1 - p then v / (1 - p) else 0) 0 x
  else x

theorem vecMapIdx_id (f : ℕ → ℚ → ℚ) (h : ∀ k v, f k v = v) :
    ∀ n l, vecMapIdx f n l = l := by
  intro n l
  induction l generalizing n with
  | nil => rfl
  | cons v vs ih => simp [vecMapIdx, h, ih]

theorem matMapIdx_id (f : ℕ → ℕ → ℚ → ℚ) (h : ∀ j k v, f j k v = v) :
    ∀ n m, matMapIdx f n m = m := by
  intro n m
  induction m generalizing n with
  | nil => rfl
  | cons r rs ih => simp [matMapIdx, vecMapIdx_id _ (h _), ih]

theorem tensorMapIdx_id (f : ℕ → ℕ → ℕ → ℚ → ℚ) (h : ∀ i j k v, f i j k v = v) :
    ∀ n x, tensorMapIdx f n x = x := by
  intro n x
  induction x generalizing n with
  | nil => rfl
  | cons m ms ih => simp [tensorMapIdx, matMapIdx_id _ (h _), ih]

/-- With rate 0 and draws in [0, 1) — or in evaluation mode — a dropout
module is the identity. -/
theorem nnDropoutRun_zero (training : Bool) (u : ℕ → ℕ → ℕ → ℚ)
    (hu : ∀ i j k, u i j k < 1) : nnDropoutRun 0 training u = fun x => x := by
  funext x
  cases training with
  | false => rfl
  | true =>
    simp only [nnDropoutRun, if_true]
    exact tensorMapIdx_id _ (fun i j k v => by simp [hu i j k]) 0 x

/-- Claim C4: with both of the layer dropout rates set to 0 (dropout draws
in [0, 1), training or evaluation mode), forward is a pure deterministic
function of its inputs and parameters: two calls whose dropout modules see
different random draws — as two successive calls do — return identical
outputs.  The layer value itself is immutable in this embedding, so no
per-call state changes; the attention collaborator (which owns the third,
attention-dropout rate) is the same fixed function on both sides, as
"identical parameter values" requires. -/
theorem forward_deterministic_at_zero_dropout (L : GraphormerGraphEncoderLayer)
    (tr1 tr2 tr3 tr4 : Bool) (u1 u2 u3 u4 : ℕ → ℕ → ℕ → ℚ)
    (h1 : ∀ i j k, u1 i j k < 1) (h2 : ∀ i j k, u2 i j k < 1)
    (h3 : ∀ i j k, u3 i j k < 1) (h4 : ∀ i j k, u4 i j k < 1)
    (x : Tensor) (bias mask padding : Option Tensor) :
    GraphormerGraphEncoderLayer.forward
      { L with dropout_module := nnDropoutRun 0 tr1 u1,
               activation_dropout_module := nnDropoutRun 0 tr2 u2 }
      x bias mask padding =
    GraphormerGraphEncoderLayer.forward
      { L with dropout_module := nnDropoutRun 0 tr3 u3,
               activation_dropout_module := nnDropoutRun 0 tr4 u4 }
      x bias mask padding := by
  rw [nnDropoutRun_zero tr1 u1 h1, nnDropoutRun_zero tr2 u2 h2,
    nnDropoutRun_zero tr3 u3 h3, nnDropoutRun_zero tr4 u4 h4]

def detWitnessLayer : GraphormerGraphEncoderLayer where
  pre_layernorm := true
  self_attn := fun q _ _ _ _ _ _ => (q, none)
  self_attn_layer_norm := fun y => y
  final_layer_norm := fun y => y
  dropout_module := fun y => y
  activation_dropout_module := fun y => y
  activation_fn := fun v => v
  fc1 := ⟨[[2]], [1]⟩
  fc2 := ⟨[[3]], [0]⟩

/-- Witness for claim C4 at a concrete layer, input and pair of distinct
dropout draws. -/
theorem forward_deterministic_at_zero_dropout_witness :
    GraphormerGraphEncoderLayer.forward
      { detWitnessLayer with
          dropout_module := nnDropoutRun 0 true (fun _ _ _ => 1 / 2),
          activation_dropout_module := nnDropoutRun 0 true (fun _ _ _ => 1 / 3) }
      [[[1]]] none none none =
    GraphormerGraphEncoderLayer.forward
      { detWitnessLayer with
          dropout_module := nnDropoutRun 0 false (fun _ _ _ => 1 / 4),
          activation_dropout_module := nnDropoutRun 0 true (fun _ _ _ => 2 / 3) }
      [[[1]]] none none none :=
  forward_deterministic_at_zero_dropout detWitnessLayer true true false true
    (fun _ _ _ => 1 / 2) (fun _ _ _ => 1 / 3) (fun _ _ _ => 1 / 4) (fun _ _ _ => 2 / 3)
    (fun _ _ _ => by norm_num) (fun _ _ _ => by norm_num)
    (fun _ _ _ => by norm_num) (fun _ _ _ => by norm_num)
    [[[1]]] none none none

/-- Claim C5: when both normalization modules are the identity transform,
the pre-norm and post-norm settings of the flag compute the same function —
normalization placement becomes a no-op. -/
theorem forward_prenorm_eq_postnorm_of_identity_norm (L : GraphormerGraphEncoderLayer)
    (hn1 : L.self_attn_layer_norm = fun y => y)
    (hn2 : L.final_layer_norm = fun y => y)
    (x : Tensor) (bias mask padding : Option Tensor) :
    GraphormerGraphEncoderLayer.forward { L with pre_layernorm := true } x bias mask padding =
      GraphormerGraphEncoderLayer.forward { L with pre_layernorm := false } x bias mask padding := by
  simp [GraphormerGraphEncoderLayer.forward, hn1, hn2]

def identityNormWitnessLayer : GraphormerGraphEncoderLayer where
  pre_layernorm := false
  self_attn := fun q _ _ _ _ _ _ => (q, none)
  self_attn_layer_norm := fun y => y
  final_layer_norm := fun y => y
  dropout_module := fun y => y
  activation_dropout_module := fun y => y
  activation_fn := fun v => max v 0
  fc1 := ⟨[[1], [2]], [0, 1]⟩
  fc2 := ⟨[[1, 1]], [0]⟩

/-- Witness for claim C5 at a concrete layer with identity norms. -/
theorem forward_prenorm_eq_postnorm_of_identity_norm_witness :
    GraphormerGraphEncoderLayer.forward
        { identityNormWitnessLayer with pre_layernorm := true } [[[1]]] none none none =
      GraphormerGraphEncoderLayer.forward
        { identityNormWitnessLayer with pre_layernorm := false } [[[1]]] none none none :=
  forward_prenorm_eq_postnorm_of_identity_norm identityNormWitnessLayer rfl rfl
    [[[1]]] none none none

/-! Activation dispatch.  The five torch library functions referenced by
`get_activation_fn` live outside this repository; they are embedded here by
their documented elementwise semantics over the reals. -/

/-- `torch.nn.functional.relu`: x ↦ max(x, 0). -/
noncomputable def F.relu (x : ℝ) : ℝ := max x 0

/-- Standard Gaussian cumulative distribution function Φ. -/
noncomputable def gaussianCdf (x : ℝ) : ℝ :=
  (Real.sqrt (2 * Real.pi))⁻¹ * ∫ t in Set.Iic x, Real.exp (-(t ^ 2) / 2)

/-- `torch.nn.functional.gelu` (exact mode): the Gaussian Error Linear Unit
x ↦ x · Φ(x). -/
noncomputable def F.gelu (x : ℝ) : ℝ := x * gaussianCdf x

/-- `torch.tanh`, elementwise hyperbolic tangent. -/
noncomputable def torch.tanh (x : ℝ) : ℝ := Real.tanh x

/-- The logistic sigmoid x ↦ 1 / (1 + exp(-x)). -/
noncomputable def sigmoid (x : ℝ) : ℝ := 1 / (1 + Real.exp (-x))

/-- `torch.nn.functional.silu`: x ↦ x · sigmoid(x) (swish). -/
noncomputable def F.silu (x : ℝ) : ℝ := x * sigmoid x

/-- `get_activation_fn` (source lines 18-31): maps the five recognized
selector strings to the corresponding torch functions and fails on any other
string with a `RuntimeError` whose message names the selector, embedded as
an `Except` value. -/
noncomputable def get_activation_fn (activation : String) : Except String (ℝ → ℝ) :=
  if activation = "relu" then Except.ok F.relu
  else if activation = "gelu" then Except.ok F.gelu
  else if activation = "tanh" then Except.ok torch.tanh
  else if activation = "linear" then Except.ok (fun x => x)
  else if activation = "swish" then Except.ok F.silu
  else Except.error ("--activation-fn " ++ activation ++ " not supported")

/-- `True` on `Except.ok`, `False` on `Except.error`: construction succeeded. -/
def constructionSucceeds {α : Type} (e : Except String α) : Bool :=
  match e with
  | Except.ok _ => true
  | Except.error _ => false

/-- Claim C6: `get_activation_fn` maps exactly the five selectors of the
closed set to elementwise functions with the stated semantics — relu to
max(x, 0), gelu to the Gaussian Error Linear Unit x·Φ(x), tanh to the
hyperbolic tangent, linear to the identity, swish to x·sigmoid(x) — and
succeeds on no other selector. -/
theorem get_activation_fn_semantics :
    get_activation_fn "relu" = Except.ok F.relu ∧ (∀ x : ℝ, F.relu x = max x 0) ∧
    get_activation_fn "gelu" = Except.ok F.gelu ∧ (∀ x : ℝ, F.gelu x = x * gaussianCdf x) ∧
    get_activation_fn "tanh" = Except.ok torch.tanh ∧ (∀ x : ℝ, torch.tanh x = Real.tanh x) ∧
    get_activation_fn "linear" = Except.ok (fun x : ℝ => x) ∧
    get_activation_fn "swish" = Except.ok F.silu ∧ (∀ x : ℝ, F.silu x = x * sigmoid x) ∧
    ∀ s : String, constructionSucceeds (get_activation_fn s) = true ↔
      s ∈ ["relu", "gelu", "tanh", "linear", "swish"] := by
  refine ⟨rfl, fun _ => rfl, rfl, fun _ => rfl, rfl, fun _ => rfl, rfl, rfl, fun _ => rfl, ?_⟩
  intro s
  unfold get_activation_fn
  split_ifs with h1 h2 h3 h4 h5 <;>
    simp_all [constructionSucceeds]

/-! Construction.  `GraphormerGraphEncoderLayer.__init__` (source lines
35-94) is embedded as a function returning either the constructed
configuration record or the message of the first exception raised, together
with the trace of construction events in the order the constructor performs
them. -/

/-- Configuration record of a `nn.Dropout` module. -/
structure DropoutDesc where
  p : ℚ

/-- Configuration record of a `nn.Linear` module. -/
structure LinearDesc where
  in_features : ℤ
  out_features : ℤ

/-- Configuration record of a `nn.LayerNorm` module. -/
structure LayerNormDesc where
  normalized_shape : ℤ

/-- Configuration record of the `MultiheadAttention` collaborator. -/
structure MultiheadAttentionDesc where
  embed_dim : ℤ
  num_heads : ℤ
  dropout : ℚ
  q_noise : ℚ
  qn_block_size : ℤ

/-- `torch.nn.Dropout(p)`: raises `ValueError` unless 0 ≤ p ≤ 1 (torch
accepts the closed interval, including p = 1). -/
def nn.Dropout (p : ℚ) : Except String DropoutDesc :=
  if p < 0 ∨ 1 < p then Except.error "dropout probability has to be between 0 and 1"
  else Except.ok ⟨p⟩

/-- `torch.nn.Linear(in_features, out_features)`: fails on a negative
dimension (tensor allocation), accepts zero. -/
def nn.Linear (in_features out_features : ℤ) : Except String LinearDesc :=
  if in_features < 0 ∨ out_features < 0 then
    Except.error "Trying to create tensor with negative dimension"
  else Except.ok ⟨in_features, out_features⟩

/-- `torch.nn.LayerNorm(normalized_shape)`: fails on a negative shape
(tensor allocation), accepts zero. -/
def nn.LayerNorm (normalized_shape : ℤ) : Except String LayerNormDesc :=
  if normalized_shape < 0 then
    Except.error "Trying to create tensor with negative dimension"
  else Except.ok ⟨normalized_shape⟩

/-- Modelled from the spec: the constructor of the `MultiheadAttention`
collaborator (`graphormer/modules/multihead_attention.py`, a file of this
repository that is not under `src/`).  Per spec section 4.1 it enforces that
the attention head count is a positive count that evenly divides the
embedding dimension, and it owns the attention-dropout probability as a
torch Dropout module (probability validated in [0, 1]). -/
def MultiheadAttention.init (embed_dim num_heads : ℤ) (dropout : ℚ)
    (q_noise : ℚ) (qn_block_size : ℤ) : Except String MultiheadAttentionDesc :=
  match nn.Dropout dropout with
  | Except.error e => Except.error e
  | Except.ok _ =>
    if num_heads ≤ 0 ∨ embed_dim % num_heads ≠ 0 then
      Except.error "embed_dim must be divisible by num_heads"
    else Except.ok ⟨embed_dim, num_heads, dropout, q_noise, qn_block_size⟩

/-- `build_self_attention` (source lines 102-117): constructs the
`MultiheadAttention` collaborator; the `self_attention` flag is passed as the
literal `True` at the call site inside it. -/
def GraphormerGraphEncoderLayer.build_self_attention
    (embed_dim num_attention_heads : ℤ) (dropout : ℚ) (self_attention : Bool)
    (q_noise : ℚ) (qn_block_size : ℤ) : Except String MultiheadAttentionDesc :=
  MultiheadAttention.init embed_dim num_attention_heads dropout q_noise qn_block_size

/-- `build_fc1` (source lines 96-97): returns `nn.Linear(input_dim,
output_dim)`; the threaded `q_noise` and `qn_block_size` arguments are not
used. -/
def GraphormerGraphEncoderLayer.build_fc1 (input_dim output_dim : ℤ)
    (q_noise : ℚ) (qn_block_size : ℤ) : Except String LinearDesc :=
  nn.Linear input_dim output_dim

/-- `build_fc2` (source lines 99-100): returns `nn.Linear(input_dim,
output_dim)`; the threaded `q_noise` and `qn_block_size` arguments are not
used. -/
def GraphormerGraphEncoderLayer.build_fc2 (input_dim output_dim : ℤ)
    (q_noise : ℚ) (qn_block_size : ℤ) : Except String LinearDesc :=
  nn.Linear input_dim output_dim

/-- One observable step of the constructor: the optional hook call, or the
allocation of one of the parameter-carrying modules. -/
inductive InitEvent where
  | initFnCalled
  | dropoutModuleAllocated
  | activationDropoutModuleAllocated
  | activationResolved
  | selfAttnAllocated
  | selfAttnLayerNormAllocated
  | fc1Allocated
  | fc2Allocated
  | finalLayerNormAllocated
deriving DecidableEq, Repr

/-- The configuration a successful `__init__` stores on the layer. -/
structure GraphormerGraphEncoderLayerDesc where
  embedding_dim : ℤ
  ffn_embedding_dim : ℤ
  num_attention_heads : ℤ
  dropout : ℚ
  attention_dropout : ℚ
  activation_dropout : ℚ
  q_noise : ℚ
  qn_block_size : ℤ
  pre_layernorm : Bool

/-- The module-allocation part of `__init__` (source lines 55-94), in
statement order: `nn.Dropout(dropout)`, `nn.Dropout(activation_dropout)`,
`get_activation_fn(activation_fn)`, `build_self_attention` (which receives
`attention_dropout`), `nn.LayerNorm`, `build_fc1`, `build_fc2`,
`nn.LayerNorm` — stopping at the first raised exception, with the event
trace accumulated so far. -/
noncomputable def GraphormerGraphEncoderLayer.initAllocations
    (embedding_dim ffn_embedding_dim num_attention_heads : ℤ)
    (dropout attention_dropout activation_dropout : ℚ)
    (activation_fn : String) (q_noise : ℚ) (qn_block_size : ℤ)
    (pre_layernorm : Bool) :
    Except String GraphormerGraphEncoderLayerDesc × List InitEvent :=
  match nn.Dropout dropout with
  | Except.error e => (Except.error e, [])
  | Except.ok _ =>
  match nn.Dropout activation_dropout with
  | Except.error e => (Except.error e, [InitEvent.dropoutModuleAllocated])
  | Except.ok _ =>
  match get_activation_fn activation_fn with
  | Except.error e => (Except.error e,
      [InitEvent.dropoutModuleAllocated, InitEvent.activationDropoutModuleAllocated])
  | Except.ok _ =>
  match GraphormerGraphEncoderLayer.build_self_attention embedding_dim
      num_attention_heads attention_dropout true q_noise qn_block_size with
  | Except.error e => (Except.error e,
      [InitEvent.dropoutModuleAllocated, InitEvent.activationDropoutModuleAllocated,
       InitEvent.activationResolved])
  | Except.ok _ =>
  match nn.LayerNorm embedding_dim with
  | Except.error e => (Except.error e,
      [InitEvent.dropoutModuleAllocated, InitEvent.activationDropoutModuleAllocated,
       InitEvent.activationResolved, InitEvent.selfAttnAllocated])
  | Except.ok _ =>
  match GraphormerGraphEncoderLayer.build_fc1 embedding_dim ffn_embedding_dim
      q_noise qn_block_size with
  | Except.error e => (Except.error e,
      [InitEvent.dropoutModuleAllocated, InitEvent.activationDropoutModuleAllocated,
       InitEvent.activationResolved, InitEvent.selfAttnAllocated,
       InitEvent.selfAttnLayerNormAllocated])
  | Except.ok _ =>
  match GraphormerGraphEncoderLayer.build_fc2 ffn_embedding_dim embedding_dim
      q_noise qn_block_size with
  | Except.error e => (Except.error e,
      [InitEvent.dropoutModuleAllocated, InitEvent.activationDropoutModuleAllocated,
       InitEvent.activationResolved, InitEvent.selfAttnAllocated,
       InitEvent.selfAttnLayerNormAllocated, InitEvent.fc1Allocated])
  | Except.ok _ =>
  match nn.LayerNorm embedding_dim with
  | Except.error e => (Except.error e,
      [InitEvent.dropoutModuleAllocated, InitEvent.activationDropoutModuleAllocated,
       InitEvent.activationResolved, InitEvent.selfAttnAllocated,
       InitEvent.selfAttnLayerNormAllocated, InitEvent.fc1Allocated,
       InitEvent.fc2Allocated])
  | Except.ok _ =>
    (Except.ok ⟨embedding_dim, ffn_embedding_dim, num_attention_heads, dropout,
      attention_dropout, activation_dropout, q_noise, qn_block_size, pre_layernorm⟩,
     [InitEvent.dropoutModuleAllocated, InitEvent.activationDropoutModuleAllocated,
      InitEvent.activationResolved, InitEvent.selfAttnAllocated,
      InitEvent.selfAttnLayerNormAllocated, InitEvent.fc1Allocated,
      InitEvent.fc2Allocated, InitEvent.finalLayerNormAllocated])

/-- `GraphormerGraphEncoderLayer.__init__` (source lines 35-94).  Its first
statement after `super().__init__()` is `if init_fn is not None: init_fn()`
— the hook, carrying no arguments and no consumed return value, runs before
any attribute is set or module allocated; everything afterwards is
`initAllocations`. -/
noncomputable def GraphormerGraphEncoderLayer.init
    (embedding_dim ffn_embedding_dim num_attention_heads : ℤ)
    (dropout attention_dropout activation_dropout : ℚ)
    (activation_fn : String) (q_noise : ℚ) (qn_block_size : ℤ)
    (init_fn : Option Unit) (pre_layernorm : Bool) :
    Except String GraphormerGraphEncoderLayerDesc × List InitEvent :=
  let hookEvents := if init_fn.isSome then [InitEvent.initFnCalled] else []
  let rest := GraphormerGraphEncoderLayer.initAllocations embedding_dim
    ffn_embedding_dim num_attention_heads dropout attention_dropout
    activation_dropout activation_fn q_noise qn_block_size pre_layernorm
  (rest.1, hookEvents ++ rest.2)

theorem constructionSucceeds_iff {α : Type} (e : Except String α) :
    constructionSucceeds e = true ↔ ∃ a, e = Except.ok a := by
  cases e <;> simp [constructionSucceeds]

theorem get_activation_fn_ok_iff (s : String) :
    constructionSucceeds (get_activation_fn s) = true ↔
      s ∈ ["relu", "gelu", "tanh", "linear", "swish"] := by
  unfold get_activation_fn
  split_ifs with h1 h2 h3 h4 h5 <;> simp_all [constructionSucceeds]

theorem nnDropout_eq_ok {p : ℚ} (h : 0 ≤ p ∧ p ≤ 1) :
    nn.Dropout p = Except.ok ⟨p⟩ := by
  unfold nn.Dropout
  rw [if_neg]
  push_neg
  exact h

theorem nnDropout_eq_error {p : ℚ} (h : ¬(0 ≤ p ∧ p ≤ 1)) :
    nn.Dropout p = Except.error "dropout probability has to be between 0 and 1" := by
  unfold nn.Dropout
  rw [if_pos]
  rcases not_and_or.mp h with h | h
  · exact Or.inl (not_le.mp h)
  · exact Or.inr (not_le.mp h)

theorem nnLayerNorm_eq_ok {d : ℤ} (h : 0 ≤ d) :
    nn.LayerNorm d = Except.ok ⟨d⟩ := by
  unfold nn.LayerNorm
  rw [if_neg (not_lt.mpr h)]

theorem nnLayerNorm_eq_error {d : ℤ} (h : ¬0 ≤ d) :
    nn.LayerNorm d = Except.error "Trying to create tensor with negative dimension" := by
  unfold nn.LayerNorm
  rw [if_pos (not_le.mp h)]

theorem nnLinear_eq_ok {i o : ℤ} (h : 0 ≤ i ∧ 0 ≤ o) :
    nn.Linear i o = Except.ok ⟨i, o⟩ := by
  unfold nn.Linear
  rw [if_neg]
  push_neg
  exact h

theorem nnLinear_eq_error {i o : ℤ} (h : ¬(0 ≤ i ∧ 0 ≤ o)) :
    nn.Linear i o = Except.error "Trying to create tensor with negative dimension" := by
  unfold nn.Linear
  rw [if_pos]
  rcases not_and_or.mp h with h | h
  · exact Or.inl (not_le.mp h)
  · exact Or.inr (not_le.mp h)

theorem MultiheadAttention_init_eq_ok {e h : ℤ} {d q : ℚ} {b : ℤ}
    (hd : 0 ≤ d ∧ d ≤ 1) (hh : 0 < h ∧ e % h = 0) :
    MultiheadAttention.init e h d q b = Except.ok ⟨e, h, d, q, b⟩ := by
  unfold MultiheadAttention.init
  rw [nnDropout_eq_ok hd]
  rw [if_neg]
  push_neg
  exact hh

theorem MultiheadAttention_init_eq_error {e h : ℤ} {d q : ℚ} {b : ℤ}
    (hbad : ¬((0 ≤ d ∧ d ≤ 1) ∧ 0 < h ∧ e % h = 0)) :
    ∃ msg, MultiheadAttention.init e h d q b = Except.error msg := by
  unfold MultiheadAttention.init
  by_cases hd : 0 ≤ d ∧ d ≤ 1
  · rw [nnDropout_eq_ok hd]
    rw [if_pos]
    · exact ⟨_, rfl⟩
    · rcases not_and_or.mp hbad with h1 | h1
      · exact absurd hd h1
      · rcases not_and_or.mp h1 with h2 | h2
        · exact Or.inl (not_lt.mp h2)
        · exact Or.inr h2
  · rw [nnDropout_eq_error hd]
    exact ⟨_, rfl⟩

/-- Claim C3 (theorem): for every selector outside the recognized set and any
otherwise-survivable configuration (the two layer dropout probabilities in
torch's accepted range, so that construction reaches the activation lookup),
`__init__` raises the `RuntimeError` of `get_activation_fn`, whose message
names the invalid selector; no layer is produced and no fallback occurs. -/
theorem init_rejects_unknown_activation
    (emb ffn heads : ℤ) (d atd ad : ℚ) (s : String) (q : ℚ) (qb : ℤ)
    (fn : Option Unit) (pre : Bool)
    (hd : 0 ≤ d ∧ d ≤ 1) (had : 0 ≤ ad ∧ ad ≤ 1)
    (hs : s ≠ "relu" ∧ s ≠ "gelu" ∧ s ≠ "tanh" ∧ s ≠ "linear" ∧ s ≠ "swish") :
    (GraphormerGraphEncoderLayer.init emb ffn heads d atd ad s q qb fn pre).1 =
      Except.error ("--activation-fn " ++ s ++ " not supported") := by
  have e3 : get_activation_fn s =
      Except.error ("--activation-fn " ++ s ++ " not supported") := by
    unfold get_activation_fn
    rw [if_neg hs.1, if_neg hs.2.1, if_neg hs.2.2.1, if_neg hs.2.2.2.1, if_neg hs.2.2.2.2]
  have h0 : (GraphormerGraphEncoderLayer.init emb ffn heads d atd ad s q qb fn pre).1 =
      (GraphormerGraphEncoderLayer.initAllocations emb ffn heads d atd ad s q qb pre).1 := rfl
  rw [h0]
  unfold GraphormerGraphEncoderLayer.initAllocations
  rw [nnDropout_eq_ok hd, nnDropout_eq_ok had, e3]

/-- Witness for claim C3 with the selector `"bogus"` and default-like valid
remaining configuration. -/
theorem init_rejects_unknown_activation_witness :
    ((0 : ℚ) ≤ 1 / 10 ∧ (1 : ℚ) / 10 ≤ 1) ∧
      (GraphormerGraphEncoderLayer.init 768 3072 8 (1 / 10) (1 / 10) (1 / 10) "bogus"
          0 8 none false).1 =
        Except.error ("--activation-fn " ++ "bogus" ++ " not supported") :=
  ⟨by norm_num,
    init_rejects_unknown_activation 768 3072 8 (1 / 10) (1 / 10) (1 / 10) "bogus" 0 8
      none false (by norm_num) (by norm_num) (by decide)⟩

/-- Counterexample for claim C7: construction succeeds with a dropout
probability of exactly 1 — which lies outside the [0,1) interval named by
the claim — and also with embedding dimension 0, a non-positive dimension
value.  Configuration errors therefore do not cover all the invalid values
the claim lists. -/
theorem init_accepts_some_invalid_config :
    constructionSucceeds
        (GraphormerGraphEncoderLayer.init 768 3072 8 1 0 0 "relu"
          0 8 none false).1 = true ∧
      constructionSucceeds
        (GraphormerGraphEncoderLayer.init 0 3072 8 0 0 0 "relu"
          0 8 none false).1 = true := by
  constructor <;> decide

/-- Claim C7 (amended theorem): construction fails fast exactly when some
constructor-time check fails — a dropout or activation-dropout probability
outside torch's accepted closed interval [0, 1], an unrecognized activation
selector, an attention-dropout probability outside [0, 1], a head count that
is not a positive divisor of the embedding dimension, or a negative
embedding or feed-forward dimension.  Probability exactly 1 and zero
dimensions are accepted. -/
theorem init_failfast_characterization (emb ffn heads : ℤ) (d atd ad : ℚ)
    (s : String) (q : ℚ) (qb : ℤ) (fn : Option Unit) (pre : Bool) :
    constructionSucceeds
        (GraphormerGraphEncoderLayer.init emb ffn heads d atd ad s q qb fn pre).1 = true ↔
      ((0 ≤ d ∧ d ≤ 1) ∧ (0 ≤ ad ∧ ad ≤ 1) ∧
        s ∈ ["relu", "gelu", "tanh", "linear", "swish"] ∧
        (0 ≤ atd ∧ atd ≤ 1) ∧ 0 < heads ∧ emb % heads = 0 ∧ 0 ≤ emb ∧ 0 ≤ ffn) := by
  have h0 : (GraphormerGraphEncoderLayer.init emb ffn heads d atd ad s q qb fn pre).1 =
      (GraphormerGraphEncoderLayer.initAllocations emb ffn heads d atd ad s q qb pre).1 := rfl
  rw [h0]
  unfold GraphormerGraphEncoderLayer.initAllocations
    GraphormerGraphEncoderLayer.build_self_attention
    GraphormerGraphEncoderLayer.build_fc1 GraphormerGraphEncoderLayer.build_fc2
  by_cases hc1 : 0 ≤ d ∧ d ≤ 1
  · rw [nnDropout_eq_ok hc1]
    by_cases hc2 : 0 ≤ ad ∧ ad ≤ 1
    · rw [nnDropout_eq_ok hc2]
      by_cases hc3 : s ∈ ["relu", "gelu", "tanh", "linear", "swish"]
      · obtain ⟨f, hf⟩ := (constructionSucceeds_iff _).mp
          ((get_activation_fn_ok_iff s).mpr hc3)
        rw [hf]
        by_cases hc4 : (0 ≤ atd ∧ atd ≤ 1) ∧ 0 < heads ∧ emb % heads = 0
        · rw [MultiheadAttention_init_eq_ok hc4.1 hc4.2]
          by_cases hc5 : 0 ≤ emb
          · rw [nnLayerNorm_eq_ok hc5]
            by_cases hc6 : 0 ≤ ffn
            · rw [nnLinear_eq_ok ⟨hc5, hc6⟩, nnLinear_eq_ok ⟨hc6, hc5⟩]
              simp [constructionSucceeds, hc1, hc2, hc3, hc4.1, hc4.2.1, hc4.2.2, hc5, hc6]
            · rw [nnLinear_eq_error (by tauto)]
              simp [constructionSucceeds, hc6]
          · rw [nnLayerNorm_eq_error hc5]
            simp [constructionSucceeds, hc5]
        · obtain ⟨msg, hmsg⟩ := MultiheadAttention_init_eq_error hc4
          rw [hmsg]
          constructor
          · intro h
            simp [constructionSucceeds] at h
          · intro h
            exact absurd ⟨h.2.2.2.1, h.2.2.2.2.1, h.2.2.2.2.2.1⟩ hc4
      · have : get_activation_fn s =
            Except.error ("--activation-fn " ++ s ++ " not supported") := by
          unfold get_activation_fn
          simp only [List.mem_cons, List.mem_singleton, List.not_mem_nil, or_false] at hc3
          push_neg at hc3
          rw [if_neg hc3.1, if_neg hc3.2.1, if_neg hc3.2.2.1, if_neg hc3.2.2.2.1,
            if_neg hc3.2.2.2.2]
        rw [this]
        simp [constructionSucceeds, hc3]
    · rw [nnDropout_eq_error hc2]
      simp [constructionSucceeds, hc2]
  · rw [nnDropout_eq_error hc1]
    simp [constructionSucceeds, hc1]

theorem initFnCalled_not_mem_allocations (emb ffn heads : ℤ) (d atd ad : ℚ)
    (s : String) (q : ℚ) (qb : ℤ) (pre : Bool) :
    InitEvent.initFnCalled ∉
      (GraphormerGraphEncoderLayer.initAllocations emb ffn heads d atd ad s q qb pre).2 := by
  unfold GraphormerGraphEncoderLayer.initAllocations
  repeat' split
  all_goals simp

/-- The hook placement asserted by the claim: the hook call appears exactly
once in the construction trace, strictly after the allocation of the
attention, normalization and linear parameter modules. -/
def hookAfterParameterAllocation (tr : List InitEvent) : Bool :=
  (tr.count InitEvent.initFnCalled == 1) &&
  (tr.indexOf InitEvent.selfAttnAllocated < tr.indexOf InitEvent.initFnCalled) &&
  (tr.indexOf InitEvent.selfAttnLayerNormAllocated < tr.indexOf InitEvent.initFnCalled) &&
  (tr.indexOf InitEvent.fc1Allocated < tr.indexOf InitEvent.initFnCalled) &&
  (tr.indexOf InitEvent.fc2Allocated < tr.indexOf InitEvent.initFnCalled) &&
  (tr.indexOf InitEvent.finalLayerNormAllocated < tr.indexOf InitEvent.initFnCalled)

/-- Counterexample for claim C8: at a concrete valid configuration with a
hook supplied, the construction trace begins with the hook call and every
parameter allocation comes after it, so the claimed placement — hook invoked
after the normalization, linear and attention parameters are constructed —
is false: `init_fn()` is the first statement of `__init__`. -/
theorem init_hook_runs_first_counterexample :
    (GraphormerGraphEncoderLayer.init 768 3072 8 0 0 0 "relu" 0 8 (some ()) false).2 =
      [InitEvent.initFnCalled, InitEvent.dropoutModuleAllocated,
       InitEvent.activationDropoutModuleAllocated, InitEvent.activationResolved,
       InitEvent.selfAttnAllocated, InitEvent.selfAttnLayerNormAllocated,
       InitEvent.fc1Allocated, InitEvent.fc2Allocated, InitEvent.finalLayerNormAllocated] ∧
    hookAfterParameterAllocation
      (GraphormerGraphEncoderLayer.init 768 3072 8 0 0 0 "relu" 0 8 (some ()) false).2 =
      false := by
  constructor <;> decide

/-- Claim C8 (amended theorem): for every configuration, a supplied hook is
invoked exactly once, with no arguments and no consumed return value, as the
very first construction step — before any parameter allocation — and an
absent hook is never invoked. -/
theorem init_hook_called_once_at_start (emb ffn heads : ℤ) (d atd ad : ℚ)
    (s : String) (q : ℚ) (qb : ℤ) (pre : Bool) :
    ((GraphormerGraphEncoderLayer.init emb ffn heads d atd ad s q qb (some ()) pre).2.count
        InitEvent.initFnCalled = 1 ∧
      (GraphormerGraphEncoderLayer.init emb ffn heads d atd ad s q qb (some ()) pre).2.head? =
        some InitEvent.initFnCalled) ∧
    (GraphormerGraphEncoderLayer.init emb ffn heads d atd ad s q qb none pre).2.count
        InitEvent.initFnCalled = 0 := by
  have hni := initFnCalled_not_mem_allocations emb ffn heads d atd ad s q qb pre
  have h2 : (GraphormerGraphEncoderLayer.init emb ffn heads d atd ad s q qb (some ()) pre).2 =
      InitEvent.initFnCalled ::
        (GraphormerGraphEncoderLayer.initAllocations emb ffn heads d atd ad s q qb pre).2 := rfl
  have h3 : (GraphormerGraphEncoderLayer.init emb ffn heads d atd ad s q qb none pre).2 =
      (GraphormerGraphEncoderLayer.initAllocations emb ffn heads d atd ad s q qb pre).2 := rfl
  rw [h2, h3]
  refine ⟨⟨?_, rfl⟩, List.count_eq_zero.mpr hni⟩
  rw [List.count_cons_self, List.count_eq_zero.mpr hni]

/-- Claim C9: `build_fc1` and `build_fc2` construct plain linear layers that
do not depend on the threaded `q_noise` and `qn_block_size` values — for any
two settings of those values the constructed module is identical, and equal
to a bare `nn.Linear` of the same dimensions. -/
theorem build_fc_ignores_quant_noise (input_dim output_dim : ℤ) (q q2 : ℚ) (b b2 : ℤ) :
    GraphormerGraphEncoderLayer.build_fc1 input_dim output_dim q b =
        GraphormerGraphEncoderLayer.build_fc1 input_dim output_dim q2 b2 ∧
      GraphormerGraphEncoderLayer.build_fc2 input_dim output_dim q b =
        GraphormerGraphEncoderLayer.build_fc2 input_dim output_dim q2 b2 ∧
      GraphormerGraphEncoderLayer.build_fc1 input_dim output_dim q b =
        nn.Linear input_dim output_dim ∧
      GraphormerGraphEncoderLayer.build_fc2 input_dim output_dim q b =
        nn.Linear input_dim output_dim :=
  ⟨rfl, rfl, rfl, rfl⟩

/-! The evaluation script `eval_graphormer_lrgb.py`. -/

/-- One value of the `DATASET_INFO` dictionary: the LRGB dataset name and the
task type. -/
structure DatasetEntry where
  name : String
  task : String
deriving DecidableEq, Repr

/-- The key-value pairs of the `DATASET_INFO` dict literal (source lines
16-23), in source order — the key `"PCQM-Contact"` appears twice, first with
task `"graph"` and later with task `"link"`. -/
def DATASET_INFO_literal : List (String × DatasetEntry) :=
  [("PCQM-Contact", ⟨"PCQM-Contact", "graph"⟩),
   ("PascalVOC-SP", ⟨"PascalVOC-SP", "node"⟩),
   ("COCO-SP", ⟨"COCO-SP", "node"⟩),
   ("PCQM-Contact", ⟨"PCQM-Contact", "link"⟩),
   ("Peptides-func", ⟨"Peptides-func", "graph"⟩),
   ("Peptides-struct", ⟨"Peptides-struct", "regression"⟩)]

/-- Python dict-literal semantics: entries are inserted left to right and a
repeated key overwrites the earlier binding, so lookup returns the latest
binding of a key. -/
def pyDict {α : Type} (entries : List (String × α)) : String → Option α :=
  entries.foldl (fun m kv => fun key => if key = kv.1 then some kv.2 else m key)
    (fun _ => none)

/-- The `DATASET_INFO` dictionary of the evaluation script. -/
def DATASET_INFO (key : String) : Option DatasetEntry := pyDict DATASET_INFO_literal key

/-- `os.environ.get("DATASET_NAME", "PCQM-Contact")` when the environment
variable is unset: the default dataset name. -/
def dataset_name : String := "PCQM-Contact"

/-- `DATASET_INFO[dataset_name]["name"]` (source line 27). -/
def lrgb_name : String :=
  match DATASET_INFO dataset_name with
  | some e => e.name
  | none => ""

/-- `DATASET_INFO[dataset_name]["task"]` (source line 28). -/
def task_type : String :=
  match DATASET_INFO dataset_name with
  | some e => e.task
  | none => ""

/-- The observable outcome of the first statements of `main()`. -/
inductive MainStart where
  | loadsDataset (name split : String)
  | notImplementedError (msg : String)
deriving DecidableEq, Repr

/-- The opening branch of `main()` (source lines 30-36): for task types
graph, node and regression it loads the validation split of the LRGB
dataset; for any other task type it raises `NotImplementedError` before any
dataset or model is loaded. -/
def main_start (tt ln : String) : MainStart :=
  if tt = "graph" ∨ tt = "node" ∨ tt = "regression" then
    MainStart.loadsDataset ln "val"
  else
    MainStart.notImplementedError
      ("Task type " ++ tt ++ " is not yet supported in this script.")

/-- Claim C10: the duplicated key `"PCQM-Contact"` in the `DATASET_INFO`
literal makes the later `"link"` entry override the earlier `"graph"` entry;
with the default dataset name the computed task type is therefore `"link"`,
and `main()` raises `NotImplementedError` before loading any dataset or
model — the graph task for PCQM-Contact is unreachable. -/
theorem pcqm_contact_task_link_main_unreachable :
    DATASET_INFO "PCQM-Contact" = some ⟨"PCQM-Contact", "link"⟩ ∧
      task_type = "link" ∧
      main_start task_type lrgb_name =
        MainStart.notImplementedError
          "Task type link is not yet supported in this script." := by
  refine ⟨by decide, by decide, by decide⟩

/-- Claim C1: every forward call follows exactly the 13-step order of spec
section 4.1 — the residual adds always use the pre-transformation snapshots
(never a renormalized tensor), attention receives query=key=value, and the
pre-norm/post-norm flag moves only the normalization sites. -/
theorem forward_follows_spec_order (self : GraphormerGraphEncoderLayer)
    (x : Tensor) (self_attn_bias self_attn_mask self_attn_padding_mask : Option Tensor) :
    self.forward x self_attn_bias self_attn_mask self_attn_padding_mask =
      self.forwardSpec x self_attn_bias self_attn_mask self_attn_padding_mask := rfl
